import Mathlib

/-!
Shallow embedding of the ChatRoom Durable Object in src/src/worker.ts.

The coordinator state (the live session set and the bounded message
history) is modelled as a pure record; every handler of the source
(fetch, handleMessage, handleClose, broadcast, sendMessageHistory,
sendPresence, alarm) becomes a pure function from the state and the
ambient inputs (the request, the parsed frame, a fresh uuid, the clock,
and a per-socket failure oracle standing for send exceptions) to the new
state together with the trace of observable effects: socket sends,
storage puts and alarm scheduling.

Inbound frames are JSON values; JavaScript truthiness of a parsed field
is modelled by the truthy function, and JSON.parse failure by the
Inbound.malformed constructor.
-/

/-- A parsed JSON value, as JSON.parse would return it. -/
inductive JValue where
  | null
  | bool (b : Bool)
  | num (n : Int)
  | str (s : String)
  | arr (elems : List JValue)
  | obj (fields : List (String × JValue))

/-- Property access parsed.k on a JSON value: a key lookup on an object,
undefined (none) on everything else. -/
def getField : JValue → String → Option JValue
  | .obj fields, k => fields.lookup k
  | _, _ => none

/-- JavaScript truthiness of a JSON value: null, false, 0 and the empty
string are falsy; every other value, including any array or object, is
truthy. -/
def truthy : JValue → Bool
  | .null => false
  | .bool b => b
  | .num n => n != 0
  | .str s => s != ""
  | .arr _ => true
  | .obj _ => true

/-- Truthiness of a possibly-undefined property: undefined is falsy. -/
def truthyOpt : Option JValue → Bool
  | none => false
  | some v => truthy v

/-- The type field of a ChatMessage in worker.ts. -/
inductive MsgType where
  | message
  | join
  | leave
  | presence
deriving DecidableEq

/-- The ChatMessage record of worker.ts. The content field keeps the raw
JSON value the code copies out of the inbound frame. -/
structure ChatMessage where
  id : String
  type : MsgType
  userId : String
  username : String
  content : Option JValue
  timestamp : Int

/-- The WebSocketSession record of worker.ts; sid is the reference
identity of the session object (Set membership in the source is by
object reference). -/
structure WebSocketSession where
  sid : Nat
  userId : String
  username : String
  quit : Bool

/-- The mutable fields of the ChatRoom Durable Object. -/
structure RoomState where
  sessions : List WebSocketSession
  messageHistory : List ChatMessage

/-- A frame written to a client socket: a history batch, a single
ChatMessage, or a presence snapshot. -/
inductive OutFrame where
  | history (messages : List ChatMessage)
  | chat (m : ChatMessage)
  | presence (users : List (String × String))

/-- An observable effect: a send attempt on a session socket (delivered
records whether the send threw; the source swallows the exception either
way), a storage put of the history, or an alarm scheduling. -/
inductive Event where
  | send (sid : Nat) (frame : OutFrame) (delivered : Bool)
  | put (messages : List ChatMessage)
  | setAlarm (t : Int)

/-- An inbound text frame after the JSON.parse attempt of handleMessage:
either the parse threw, or it produced a JSON value. -/
inductive Inbound where
  | malformed
  | parsedOk (v : JValue)

/-- The three outcomes of ChatRoom.fetch: the 400 response, the 426
response, or the 101 upgrade carrying the new session. -/
inductive FetchResult where
  | invalidRequest
  | unsupportedProtocol
  | accepted (sid : Nat)

/-- The HTTP status code of each fetch outcome in worker.ts. -/
def FetchResult.status : FetchResult → Nat
  | .invalidRequest => 400
  | .unsupportedProtocol => 426
  | .accepted _ => 101

/-- The parts of the admission request fetch reads: the two query
parameters (null when absent) and the Upgrade header (null when absent). -/
structure Request where
  userId : Option String
  username : Option String
  upgradeHeader : Option String

namespace ChatRoom

/-- ChatRoom.broadcast: serialize the message once and attempt a send on
every live session socket; a throwing send is caught and logged, so it
neither stops the loop nor changes any state. -/
def broadcast (fails : Nat → Bool) (sessions : List WebSocketSession)
    (m : ChatMessage) : List Event :=
  sessions.map (fun s => .send s.sid (.chat m) (!fails s.sid))

/-- ChatRoom.sendMessageHistory: send the full current history to one
session as a single batch; a throwing send is caught and logged. -/
def sendMessageHistory (fails : Nat → Bool) (st : RoomState)
    (s : WebSocketSession) : List Event :=
  [.send s.sid (.history st.messageHistory) (!fails s.sid)]

/-- ChatRoom.sendPresence: send the roster derived from the live session
set to one session; a throwing send is caught and logged. -/
def sendPresence (fails : Nat → Bool) (st : RoomState)
    (s : WebSocketSession) : List Event :=
  [.send s.sid
    (.presence (st.sessions.map (fun t => (t.userId, t.username))))
    (!fails s.sid)]

/-- ChatRoom.fetch: reject with 400 when userId or username is null or
empty, then with 426 when the Upgrade header is not websocket; otherwise
create the session, add it to the live set, send the history batch to
it, broadcast a join ChatMessage to every live session (the new one
included), and send the presence snapshot to the new session. freshSid
is the identity of the session object the call allocates, uuid the value
of crypto.randomUUID, now the value of Date.now. -/
def fetch (st : RoomState) (req : Request) (freshSid : Nat) (uuid : String)
    (now : Int) (fails : Nat → Bool) : RoomState × List Event × FetchResult :=
  match req.userId, req.username with
  | some u, some n =>
    if u = "" ∨ n = "" then (st, [], .invalidRequest)
    else if req.upgradeHeader ≠ some "websocket" then (st, [], .unsupportedProtocol)
    else
      let session : WebSocketSession := ⟨freshSid, u, n, false⟩
      let st1 : RoomState := ⟨st.sessions ++ [session], st.messageHistory⟩
      let joinMsg : ChatMessage := ⟨uuid, .join, u, n, none, now⟩
      (st1,
        sendMessageHistory fails st1 session
          ++ broadcast fails st1.sessions joinMsg
          ++ sendPresence fails st1 session,
        .accepted freshSid)
  | _, _ => (st, [], .invalidRequest)

/-- The guard of handleMessage: parsed.type === 'message' (a strict
string comparison) and parsed.content truthy. -/
def validFrame (v : JValue) : Bool :=
  match getField v "type" with
  | some (.str t) => t == "message" && truthyOpt (getField v "content")
  | _ => false

/-- ChatRoom.handleMessage: on a parse failure the catch swallows the
error; on a parsed value failing the guard nothing happens; otherwise a
ChatMessage is minted from the session identity, the frame content and
the clock, appended to the history, the history is capped to its most
recent 100 entries, persisted, and the message is broadcast. -/
def handleMessage (st : RoomState) (s : WebSocketSession) (data : Inbound)
    (uuid : String) (now : Int) (fails : Nat → Bool) :
    RoomState × List Event :=
  match data with
  | .malformed => (st, [])
  | .parsedOk v =>
    if validFrame v then
      let m : ChatMessage :=
        ⟨uuid, .message, s.userId, s.username, getField v "content", now⟩
      let hist1 := st.messageHistory ++ [m]
      let hist2 := if hist1.length > 100 then hist1.drop (hist1.length - 100) else hist1
      (⟨st.sessions, hist2⟩, .put hist2 :: broadcast fails st.sessions m)
    else (st, [])

/-- ChatRoom.handleClose: delete the session object from the live set
(by reference, a no-op when already absent), then, unless its quit flag
is set, broadcast a leave ChatMessage to the remaining sessions. No code
path in worker.ts ever sets quit. The trailing webSocket.close is
swallowed and has no modelled effect. -/
def handleClose (st : RoomState) (s : WebSocketSession) (uuid : String)
    (now : Int) (fails : Nat → Bool) : RoomState × List Event :=
  let st1 : RoomState := ⟨st.sessions.filter (fun t => t.sid != s.sid), st.messageHistory⟩
  if s.quit then (st1, [])
  else (st1, broadcast fails st1.sessions ⟨uuid, .leave, s.userId, s.username, none, now⟩)

/-- ChatRoom.alarm: drop every history entry not strictly newer than 24
hours before now, persist the filtered history, and schedule the next
firing one hour from now. -/
def alarm (st : RoomState) (now : Int) : RoomState × List Event :=
  let oneDayAgo := now - 24 * 60 * 60 * 1000
  let hist := st.messageHistory.filter (fun m => decide (oneDayAgo < m.timestamp))
  (⟨st.sessions, hist⟩, [.put hist, .setAlarm (now + 60 * 60 * 1000)])

end ChatRoom

/-- The ChatMessages carried by the chat-frame sends of a trace. -/
def chatMsgs (evts : List Event) : List ChatMessage :=
  evts.filterMap (fun e => match e with
    | .send _ (.chat m) _ => some m
    | _ => none)

/-- The target sids of all send attempts of a trace. -/
def sendSids (evts : List Event) : List Nat :=
  evts.filterMap (fun e => match e with
    | .send i _ _ => some i
    | _ => none)

/-- The target sids of the chat-frame sends of a trace. -/
def chatSendSids (evts : List Event) : List Nat :=
  evts.filterMap (fun e => match e with
    | .send i (.chat _) _ => some i
    | _ => none)

/-- The history-batch sends of a trace, as target sid and payload. -/
def historySends (evts : List Event) : List (Nat × List ChatMessage) :=
  evts.filterMap (fun e => match e with
    | .send i (.history ms) _ => some (i, ms)
    | _ => none)

/-- The target sids of the presence sends of a trace. -/
def presenceSids (evts : List Event) : List Nat :=
  evts.filterMap (fun e => match e with
    | .send i (.presence _) _ => some i
    | _ => none)

/-- A send attempt with its delivery outcome erased: what was attempted,
to whom, with which payload. -/
def eraseDelivered : Event → Event
  | .send i f _ => .send i f true
  | e => e

/-- The content-iff-message invariant of the spec data model. -/
def contentIffMessage (m : ChatMessage) : Prop :=
  m.content.isSome ↔ m.type = .message

/-- The room states reachable from a fresh room (empty session set,
empty history) by the four handlers. -/
inductive Reachable : RoomState → Prop where
  | init : Reachable ⟨[], []⟩
  | step_fetch (st : RoomState) (req : Request) (freshSid : Nat) (uuid : String)
      (now : Int) (fails : Nat → Bool) : Reachable st →
      Reachable (ChatRoom.fetch st req freshSid uuid now fails).1
  | step_message (st : RoomState) (s : WebSocketSession) (data : Inbound)
      (uuid : String) (now : Int) (fails : Nat → Bool) : Reachable st →
      Reachable (ChatRoom.handleMessage st s data uuid now fails).1
  | step_close (st : RoomState) (s : WebSocketSession) (uuid : String)
      (now : Int) (fails : Nat → Bool) : Reachable st →
      Reachable (ChatRoom.handleClose st s uuid now fails).1
  | step_alarm (st : RoomState) (now : Int) : Reachable st →
      Reachable (ChatRoom.alarm st now).1

/-- A session used by the concrete scenarios below. -/
def sA : WebSocketSession := ⟨0, "a", "A", false⟩

/-- A second session used by the concrete scenarios below. -/
def sB : WebSocketSession := ⟨1, "b", "B", false⟩

/-- A well-formed inbound frame with string content hi. -/
def frameHi : Inbound :=
  .parsedOk (.obj [("type", .str "message"), ("content", .str "hi")])

/-- The ChatMessage handleMessage mints from frameHi for session sA at
clock value i with uuid m. -/
def mintedAt (i : Nat) : ChatMessage :=
  ⟨"m", .message, "a", "A", some (.str "hi"), (i : Int)⟩

/-- k valid messages sent in a row by sA into a room holding only sA,
the message sent at step i carrying clock value i. -/
def sendN : Nat → RoomState
  | 0 => ⟨[sA], []⟩
  | k + 1 => (ChatRoom.handleMessage (sendN k) sA frameHi "m" (k : Int)
      (fun _ => false)).1

lemma chatMsgs_broadcast (fails : Nat → Bool) (ss : List WebSocketSession)
    (m : ChatMessage) :
    chatMsgs (ChatRoom.broadcast fails ss m) = ss.map (fun _ => m) := by
  induction ss with
  | nil => rfl
  | cons a l ih => simp_all [ChatRoom.broadcast, chatMsgs]

lemma sendSids_broadcast (fails : Nat → Bool) (ss : List WebSocketSession)
    (m : ChatMessage) :
    sendSids (ChatRoom.broadcast fails ss m) = ss.map (fun s => s.sid) := by
  induction ss with
  | nil => rfl
  | cons a l ih => simp_all [ChatRoom.broadcast, sendSids]

lemma chatSendSids_broadcast (fails : Nat → Bool) (ss : List WebSocketSession)
    (m : ChatMessage) :
    chatSendSids (ChatRoom.broadcast fails ss m) = ss.map (fun s => s.sid) := by
  induction ss with
  | nil => rfl
  | cons a l ih => simp_all [ChatRoom.broadcast, chatSendSids]

lemma historySends_broadcast (fails : Nat → Bool) (ss : List WebSocketSession)
    (m : ChatMessage) :
    historySends (ChatRoom.broadcast fails ss m) = [] := by
  induction ss with
  | nil => rfl
  | cons a l ih => simp_all [ChatRoom.broadcast, historySends]

lemma presenceSids_broadcast (fails : Nat → Bool) (ss : List WebSocketSession)
    (m : ChatMessage) :
    presenceSids (ChatRoom.broadcast fails ss m) = [] := by
  induction ss with
  | nil => rfl
  | cons a l ih => simp_all [ChatRoom.broadcast, presenceSids]

lemma validFrame_content_isSome {v : JValue} (h : ChatRoom.validFrame v = true) :
    (getField v "content").isSome = true := by
  unfold ChatRoom.validFrame at h
  rcases ht : getField v "type" with _ | w <;> rw [ht] at h
  · exact absurd h (by simp)
  · cases w <;> simp_all [truthyOpt]
    cases hc : getField v "content" <;> rw [hc] at h <;> simp_all [truthyOpt]

/-- Claim C8: a request with missing or empty userId or username is
rejected with the InvalidRequest outcome (status 400) before any session
is created and with no send, put or alarm effect; a request with valid
identity but no websocket Upgrade header is rejected with the
UnsupportedProtocol outcome (status 426), again with the state unchanged
and no effects. -/
theorem c8_admission_rejection :
    (∀ (st : RoomState) (req : Request) (freshSid : Nat) (uuid : String)
        (now : Int) (fails : Nat → Bool),
      (req.userId = none ∨ req.userId = some "" ∨ req.username = none ∨
        req.username = some "") →
      ChatRoom.fetch st req freshSid uuid now fails = (st, [], .invalidRequest))
    ∧ (∀ (st : RoomState) (u n : String) (upg : Option String) (freshSid : Nat)
        (uuid : String) (now : Int) (fails : Nat → Bool),
      u ≠ "" → n ≠ "" → upg ≠ some "websocket" →
      ChatRoom.fetch st ⟨some u, some n, upg⟩ freshSid uuid now fails =
        (st, [], .unsupportedProtocol))
    ∧ FetchResult.status .invalidRequest = 400
    ∧ FetchResult.status .unsupportedProtocol = 426 := by
  refine ⟨?_, ?_, rfl, rfl⟩
  · rintro st ⟨a, b, c⟩ freshSid uuid now fails (h | h | h | h) <;> subst h <;>
      first
        | rfl
        | (cases b <;> simp [ChatRoom.fetch])
        | (cases a <;> simp [ChatRoom.fetch])
  · intro st u n upg freshSid uuid now fails hu hn hup
    simp [ChatRoom.fetch, hu, hn, hup]

/-- Witness for C8 at a concrete rejected request. -/
theorem c8_admission_rejection_witness :
    ChatRoom.fetch ⟨[], []⟩ ⟨none, some "A", some "websocket"⟩ 0 "u" 0
      (fun _ => false) = (⟨[], []⟩, [], .invalidRequest) :=
  c8_admission_rejection.1 ⟨[], []⟩ ⟨none, some "A", some "websocket"⟩ 0 "u" 0
    (fun _ => false) (Or.inl rfl)

/-- Claim C5: after the alarm handler runs, every retained history entry
is strictly newer than 24 hours before the firing clock value, and the
effect trace is exactly one put of the filtered history followed by
exactly one alarm scheduled at the firing clock value plus one hour. -/
theorem c5_alarm_cleanup (st : RoomState) (now : Int) :
    (∀ m ∈ (ChatRoom.alarm st now).1.messageHistory,
      now < m.timestamp + 24 * 60 * 60 * 1000)
    ∧ (ChatRoom.alarm st now).2 =
        [.put (ChatRoom.alarm st now).1.messageHistory,
         .setAlarm (now + 60 * 60 * 1000)] := by
  constructor
  · intro m hm
    simp only [ChatRoom.alarm, List.mem_filter, decide_eq_true_eq] at hm
    omega
  · rfl

/-- Witness for C5: a one-entry history at clock value 50 is fully
retained and satisfies the freshness bound. -/
theorem c5_alarm_cleanup_witness :
    (50 : Int) <
      (⟨"i", .message, "a", "A", some (.str "x"), 100⟩ : ChatMessage).timestamp +
        24 * 60 * 60 * 1000 :=
  (c5_alarm_cleanup ⟨[], [⟨"i", .message, "a", "A", some (.str "x"), 100⟩]⟩ 50).1
    ⟨"i", .message, "a", "A", some (.str "x"), 100⟩ (by simp [ChatRoom.alarm])

/-- Claim C6: broadcast attempts a send on every live session (the
sender included) whatever the set of failing sockets is; every attempt
carries the same single serialized ChatMessage; and which deliveries are
attempted, to whom and with which payload is independent of which sends
throw, so one failing socket never suppresses the attempt on another and
no error reaches the caller. -/
theorem c6_broadcast_best_effort (fails : Nat → Bool)
    (sessions : List WebSocketSession) (m : ChatMessage) :
    sendSids (ChatRoom.broadcast fails sessions m) =
      sessions.map (fun s => s.sid)
    ∧ chatMsgs (ChatRoom.broadcast fails sessions m) =
        sessions.map (fun _ => m)
    ∧ (ChatRoom.broadcast fails sessions m).map eraseDelivered =
        (ChatRoom.broadcast (fun _ => false) sessions m).map eraseDelivered := by
  refine ⟨sendSids_broadcast .., chatMsgs_broadcast .., ?_⟩
  induction sessions with
  | nil => rfl
  | cons a l ih => simp_all [ChatRoom.broadcast, eraseDelivered]

set_option maxRecDepth 4000 in
/-- Claim C2: appending a valid message retains exactly the most recent
100 entries of the extended history, in insertion order, so the length
after any append is min (previous + 1) 100 and never exceeds 100; and
sending 101 distinct valid messages into an empty room leaves exactly
the last 100 of them, the oldest one discarded. -/
theorem c2_history_cap :
    (∀ (st : RoomState) (s : WebSocketSession) (v : JValue) (uuid : String)
        (now : Int) (fails : Nat → Bool), ChatRoom.validFrame v = true →
      (ChatRoom.handleMessage st s (.parsedOk v) uuid now
          fails).1.messageHistory =
        (st.messageHistory ++
          [(⟨uuid, .message, s.userId, s.username, getField v "content",
            now⟩ : ChatMessage)]).drop (st.messageHistory.length + 1 - 100)
      ∧ (ChatRoom.handleMessage st s (.parsedOk v) uuid now
          fails).1.messageHistory.length =
          min (st.messageHistory.length + 1) 100)
    ∧ (sendN 101).messageHistory = ((List.range 101).map mintedAt).drop 1
    ∧ (sendN 101).messageHistory.length = 100 := by
  refine ⟨?_, by rfl, by rfl⟩
  intro st s v uuid now fails h
  simp only [ChatRoom.handleMessage, h, if_true]
  constructor
  · split_ifs with hlen
    · simp [List.length_append]
    · have hz : st.messageHistory.length + 1 - 100 = 0 := by
        simp [List.length_append] at hlen; omega
      simp [hz]
  · split_ifs with hlen <;> simp [List.length_append] at hlen ⊢ <;> omega

lemma historySends_append (a b : List Event) :
    historySends (a ++ b) = historySends a ++ historySends b := by
  simp [historySends, List.filterMap_append]

lemma chatSendSids_append (a b : List Event) :
    chatSendSids (a ++ b) = chatSendSids a ++ chatSendSids b := by
  simp [chatSendSids, List.filterMap_append]

lemma chatMsgs_append (a b : List Event) :
    chatMsgs (a ++ b) = chatMsgs a ++ chatMsgs b := by
  simp [chatMsgs, List.filterMap_append]

lemma presenceSids_append (a b : List Event) :
    presenceSids (a ++ b) = presenceSids a ++ presenceSids b := by
  simp [presenceSids, List.filterMap_append]

lemma sendSids_append (a b : List Event) :
    sendSids (a ++ b) = sendSids a ++ sendSids b := by
  simp [sendSids, List.filterMap_append]

/-- Witness for C2 at a concrete state already holding 100 entries. -/
theorem c2_history_cap_witness :
    (ChatRoom.handleMessage ⟨[sA], (List.range 100).map mintedAt⟩ sA
      (.parsedOk (.obj [("type", .str "message"), ("content", .str "hi")]))
      "m" 100 (fun _ => false)).1.messageHistory.length =
      min ((((List.range 100).map mintedAt) : List ChatMessage).length + 1)
        100 :=
  (c2_history_cap.1 ⟨[sA], (List.range 100).map mintedAt⟩ sA
    (.obj [("type", .str "message"), ("content", .str "hi")]) "m" 100
    (fun _ => false) (by rfl)).2


/-- Claim C1: a valid admission produces exactly the trace consisting of
one history batch carrying the full current history sent to the new
session, then the join ChatMessage carrying the admitted identity
broadcast to every live session (the new one included), then one
presence snapshot sent to the new session only, in that order; the
derived conjuncts read off the single history send, the chat-send
recipients, the payload of every chat send, and the single presence
target. -/
theorem c1_admission_sequence (st : RoomState) (u n : String) (freshSid : Nat)
    (uuid : String) (now : Int) (fails : Nat → Bool) (hu : u ≠ "")
    (hn : n ≠ "") :
    ChatRoom.fetch st ⟨some u, some n, some "websocket"⟩ freshSid uuid now
        fails =
      (⟨st.sessions ++ [(⟨freshSid, u, n, false⟩ : WebSocketSession)],
          st.messageHistory⟩,
        Event.send freshSid (.history st.messageHistory) (!fails freshSid) ::
          (ChatRoom.broadcast fails
              (st.sessions ++ [(⟨freshSid, u, n, false⟩ : WebSocketSession)])
              ⟨uuid, .join, u, n, none, now⟩ ++
            [Event.send freshSid
              (.presence ((st.sessions ++
                  [(⟨freshSid, u, n, false⟩ : WebSocketSession)]).map
                (fun t => (t.userId, t.username)))) (!fails freshSid)]),
        .accepted freshSid)
    ∧ historySends (ChatRoom.fetch st ⟨some u, some n, some "websocket"⟩
        freshSid uuid now fails).2.1 = [(freshSid, st.messageHistory)]
    ∧ chatSendSids (ChatRoom.fetch st ⟨some u, some n, some "websocket"⟩
        freshSid uuid now fails).2.1 =
        (st.sessions ++ [(⟨freshSid, u, n, false⟩ : WebSocketSession)]).map
          (fun t => t.sid)
    ∧ chatMsgs (ChatRoom.fetch st ⟨some u, some n, some "websocket"⟩
        freshSid uuid now fails).2.1 =
        (st.sessions ++ [(⟨freshSid, u, n, false⟩ : WebSocketSession)]).map
          (fun _ => (⟨uuid, .join, u, n, none, now⟩ : ChatMessage))
    ∧ presenceSids (ChatRoom.fetch st ⟨some u, some n, some "websocket"⟩
        freshSid uuid now fails).2.1 = [freshSid] := by
  have hmain : ChatRoom.fetch st ⟨some u, some n, some "websocket"⟩ freshSid
      uuid now fails =
      (⟨st.sessions ++ [(⟨freshSid, u, n, false⟩ : WebSocketSession)],
          st.messageHistory⟩,
        Event.send freshSid (.history st.messageHistory) (!fails freshSid) ::
          (ChatRoom.broadcast fails
              (st.sessions ++ [(⟨freshSid, u, n, false⟩ : WebSocketSession)])
              ⟨uuid, .join, u, n, none, now⟩ ++
            [Event.send freshSid
              (.presence ((st.sessions ++
                  [(⟨freshSid, u, n, false⟩ : WebSocketSession)]).map
                (fun t => (t.userId, t.username)))) (!fails freshSid)]),
        .accepted freshSid) := by
    simp [ChatRoom.fetch, ChatRoom.sendMessageHistory, ChatRoom.sendPresence,
      hu, hn]
  refine ⟨hmain, ?_, ?_, ?_, ?_⟩
  · rw [hmain]
    show historySends ([_] ++ (_ ++ _)) = _
    rw [historySends_append, historySends_append, historySends_broadcast]
    rfl
  · rw [hmain]
    show chatSendSids ([_] ++ (_ ++ _)) = _
    rw [chatSendSids_append, chatSendSids_append, chatSendSids_broadcast]
    simp [chatSendSids]
  · rw [hmain]
    show chatMsgs ([_] ++ (_ ++ _)) = _
    rw [chatMsgs_append, chatMsgs_append, chatMsgs_broadcast]
    simp [chatMsgs]
  · rw [hmain]
    show presenceSids ([_] ++ (_ ++ _)) = _
    rw [presenceSids_append, presenceSids_append, presenceSids_broadcast]
    rfl

/-- Witness for C1 at a concrete valid admission into a room already
holding one session and one history entry. -/
theorem c1_admission_sequence_witness :
    ChatRoom.fetch ⟨[sA], [mintedAt 0]⟩ ⟨some "b", some "B", some "websocket"⟩
        1 "j" 9 (fun _ => false) =
      (⟨[sA] ++ [(⟨1, "b", "B", false⟩ : WebSocketSession)], [mintedAt 0]⟩,
        Event.send 1 (.history [mintedAt 0]) (!(fun _ : Nat => false) 1) ::
          (ChatRoom.broadcast (fun _ => false)
              ([sA] ++ [(⟨1, "b", "B", false⟩ : WebSocketSession)])
              ⟨"j", .join, "b", "B", none, 9⟩ ++
            [Event.send 1
              (.presence (([sA] ++
                  [(⟨1, "b", "B", false⟩ : WebSocketSession)]).map
                (fun t => (t.userId, t.username))))
              (!(fun _ : Nat => false) 1)]),
        .accepted 1) :=
  (c1_admission_sequence ⟨[sA], [mintedAt 0]⟩ "b" "B" 1 "j" 9 (fun _ => false)
    (by decide) (by decide)).1

/-- The number of leave-message send attempts in a trace. -/
def leaveSendCount (evts : List Event) : Nat :=
  (chatMsgs evts).countP (fun m => m.type == .leave)

/-- The first teardown of session sA in a room holding sA and sB. -/
def closeOnce : RoomState × List Event :=
  ChatRoom.handleClose ⟨[sA, sB], []⟩ sA "u1" 5 (fun _ => false)

/-- A second teardown of the same session sA, after the first one. -/
def closeTwice : RoomState × List Event :=
  ChatRoom.handleClose closeOnce.1 sA "u2" 6 (fun _ => false)

/-- Counterexample to claim C3 as stated: tearing down the same session
twice in a two-session room sends two leave messages in total (one per
invocation, each delivered to the one remaining session), not exactly
one, because no code path in worker.ts ever sets the quit flag that
guards the leave broadcast. -/
theorem c3_counterexample :
    leaveSendCount (closeOnce.2 ++ closeTwice.2) = 2
    ∧ leaveSendCount (closeOnce.2 ++ closeTwice.2) ≠ 1 := by
  refine ⟨rfl, ?_⟩
  intro h
  rw [show leaveSendCount (closeOnce.2 ++ closeTwice.2) = 2 from rfl] at h
  exact absurd h (by omega)

/-- Claim C3 as amended: removal from the live session set is idempotent
(the second teardown leaves the state of the first one unchanged), and
each leave broadcast reaches only the sessions remaining after the
removal, never the removed session itself; but every invocation of the
teardown path whose session has quit unset broadcasts a leave message,
and since no code path ever sets quit, a second invocation broadcasts a
second leave rather than none. -/
theorem c3_close_idempotent_removal (st : RoomState) (s : WebSocketSession)
    (uuid1 uuid2 : String) (now1 now2 : Int) (fails1 fails2 : Nat → Bool)
    (hq : s.quit = false) :
    (ChatRoom.handleClose (ChatRoom.handleClose st s uuid1 now1 fails1).1 s
        uuid2 now2 fails2).1 = (ChatRoom.handleClose st s uuid1 now1 fails1).1
    ∧ (ChatRoom.handleClose st s uuid1 now1 fails1).2 =
        ChatRoom.broadcast fails1
          (ChatRoom.handleClose st s uuid1 now1 fails1).1.sessions
          ⟨uuid1, .leave, s.userId, s.username, none, now1⟩
    ∧ (∀ i ∈ sendSids (ChatRoom.handleClose st s uuid1 now1 fails1).2,
        i ≠ s.sid)
    ∧ (ChatRoom.handleClose (ChatRoom.handleClose st s uuid1 now1 fails1).1 s
        uuid2 now2 fails2).2 =
        ChatRoom.broadcast fails2
          (ChatRoom.handleClose st s uuid1 now1 fails1).1.sessions
          ⟨uuid2, .leave, s.userId, s.username, none, now2⟩ := by
  refine ⟨?_, ?_, ?_, ?_⟩
  · simp [ChatRoom.handleClose, hq, List.filter_filter]
  · simp [ChatRoom.handleClose, hq]
  · intro i hi
    simp only [ChatRoom.handleClose, hq, if_false, Bool.false_eq_true,
      ite_false] at hi
    rw [sendSids_broadcast] at hi
    simp only [List.mem_map, List.mem_filter] at hi
    obtain ⟨t, ⟨_, ht⟩, rfl⟩ := hi
    exact bne_iff_ne.mp ht
  · simp [ChatRoom.handleClose, hq, List.filter_filter]

/-- Witness for the amended C3 at a concrete two-session room. -/
theorem c3_close_idempotent_removal_witness :
    (ChatRoom.handleClose (ChatRoom.handleClose ⟨[sA, sB], []⟩ sA "u1" 5
        (fun _ => false)).1 sA "u2" 6 (fun _ => false)).1 =
      (ChatRoom.handleClose ⟨[sA, sB], []⟩ sA "u1" 5 (fun _ => false)).1 :=
  (c3_close_idempotent_removal ⟨[sA, sB], []⟩ sA "u1" "u2" 5 6 (fun _ => false)
    (fun _ => false) rfl).1

/-- An inbound frame whose content is the number 42: a shape other than
type message with string content, yet truthy. -/
def frame42 : Inbound :=
  .parsedOk (.obj [("type", .str "message"), ("content", .num 42)])

/-- Counterexample to claim C4 as stated: the frame whose content field
is the number 42 is not of the shape type message with string content,
yet handling it broadcasts one chat message and appends one entry to the
history, because the source only tests parsed.content for truthiness and
the number 42 is truthy. -/
theorem c4_counterexample :
    chatMsgs (ChatRoom.handleMessage ⟨[sA], []⟩ sA frame42 "m" 7
        (fun _ => false)).2 =
      [⟨"m", .message, "a", "A", some (.num 42), 7⟩]
    ∧ (ChatRoom.handleMessage ⟨[sA], []⟩ sA frame42 "m" 7
        (fun _ => false)).1.messageHistory =
      [⟨"m", .message, "a", "A", some (.num 42), 7⟩] := ⟨rfl, rfl⟩

/-- Claim C4 as amended: an inbound frame is silently discarded, with no
state change and no effect, exactly when it fails to parse, or its type
field is not the string message, or its content field is absent or falsy
(null, false, 0 or the empty string); a parsed frame with type message
and any truthy content, string or not, is accepted. -/
theorem c4_invalid_frames_discarded :
    (∀ (st : RoomState) (s : WebSocketSession) (uuid : String) (now : Int)
        (fails : Nat → Bool),
      ChatRoom.handleMessage st s .malformed uuid now fails = (st, []))
    ∧ (∀ (st : RoomState) (s : WebSocketSession) (v : JValue) (uuid : String)
        (now : Int) (fails : Nat → Bool), ChatRoom.validFrame v = false →
      ChatRoom.handleMessage st s (.parsedOk v) uuid now fails = (st, []))
    ∧ (∀ v : JValue, ChatRoom.validFrame v = true ↔
        (getField v "type" = some (.str "message")
          ∧ truthyOpt (getField v "content") = true)) := by
  refine ⟨fun _ _ _ _ _ => rfl, ?_, ?_⟩
  · intro st s v uuid now fails h
    simp [ChatRoom.handleMessage, h]
  · intro v
    unfold ChatRoom.validFrame
    rcases ht : getField v "type" with _ | w
    · simp
    · cases w <;> simp_all

/-- Witness for the amended C4 at a concrete frame of the wrong kind. -/
theorem c4_invalid_frames_discarded_witness :
    ChatRoom.handleMessage ⟨[sA], []⟩ sA
        (.parsedOk (.obj [("type", .str "chat"), ("content", .str "hi")]))
        "m" 7 (fun _ => false) = (⟨[sA], []⟩, []) :=
  c4_invalid_frames_discarded.2.1 ⟨[sA], []⟩ sA
    (.obj [("type", .str "chat"), ("content", .str "hi")]) "m" 7
    (fun _ => false) rfl

lemma chatMsgs_cons_put (ms : List ChatMessage) (l : List Event) :
    chatMsgs (Event.put ms :: l) = chatMsgs l := rfl

lemma chatMsgs_sendMessageHistory (fails : Nat → Bool) (st : RoomState)
    (s : WebSocketSession) :
    chatMsgs (ChatRoom.sendMessageHistory fails st s) = [] := rfl

lemma chatMsgs_sendPresence (fails : Nat → Bool) (st : RoomState)
    (s : WebSocketSession) :
    chatMsgs (ChatRoom.sendPresence fails st s) = [] := rfl

/-- Claim C7: the outcome of handleMessage depends on the parsed frame
only through its type and content fields, so two frames agreeing on
those two fields and differing in any client-supplied userId or username
fields are handled identically; and every chat message it broadcasts
carries the userId and username of the session, never of the frame. -/
theorem c7_identity_from_session :
    (∀ (st : RoomState) (s : WebSocketSession) (v w : JValue) (uuid : String)
        (now : Int) (fails : Nat → Bool),
      getField v "type" = getField w "type" →
      getField v "content" = getField w "content" →
      ChatRoom.handleMessage st s (.parsedOk v) uuid now fails =
        ChatRoom.handleMessage st s (.parsedOk w) uuid now fails)
    ∧ (∀ (st : RoomState) (s : WebSocketSession) (d : Inbound) (uuid : String)
        (now : Int) (fails : Nat → Bool),
      ∀ m ∈ chatMsgs (ChatRoom.handleMessage st s d uuid now fails).2,
        m.userId = s.userId ∧ m.username = s.username) := by
  constructor
  · intro st s v w uuid now fails ht hc
    simp only [ChatRoom.handleMessage, ChatRoom.validFrame, ht, hc]
  · intro st s d uuid now fails m hm
    cases d with
    | malformed => simp [ChatRoom.handleMessage, chatMsgs] at hm
    | parsedOk v =>
      cases hv : ChatRoom.validFrame v with
      | false =>
        simp only [ChatRoom.handleMessage, hv, Bool.false_eq_true,
          if_false] at hm
        simp [chatMsgs] at hm
      | true =>
        simp only [ChatRoom.handleMessage, hv, if_true] at hm
        rw [chatMsgs_cons_put, chatMsgs_broadcast] at hm
        simp only [List.mem_map] at hm
        obtain ⟨t, -, hm⟩ := hm
        rw [← hm]
        exact ⟨rfl, rfl⟩

/-- Witness for C7 at two concrete frames differing only in a
client-supplied userId field. -/
theorem c7_identity_from_session_witness :
    ChatRoom.handleMessage ⟨[sA], []⟩ sA
        (.parsedOk (.obj [("type", .str "message"), ("content", .str "hi"),
          ("userId", .str "evil")])) "m" 7 (fun _ => false) =
      ChatRoom.handleMessage ⟨[sA], []⟩ sA
        (.parsedOk (.obj [("type", .str "message"), ("content", .str "hi"),
          ("userId", .str "other")])) "m" 7 (fun _ => false) :=
  c7_identity_from_session.1 ⟨[sA], []⟩ sA
    (.obj [("type", .str "message"), ("content", .str "hi"),
      ("userId", .str "evil")])
    (.obj [("type", .str "message"), ("content", .str "hi"),
      ("userId", .str "other")]) "m" 7 (fun _ => false) rfl rfl

/-- Claim C9: every ChatMessage minted and sent by the three handlers
(the join message of fetch, the chat message of handleMessage, the leave
message of handleClose) has its content field present exactly when its
type is message. -/
theorem c9_content_iff_message :
    (∀ (st : RoomState) (req : Request) (freshSid : Nat) (uuid : String)
        (now : Int) (fails : Nat → Bool),
      ∀ m ∈ chatMsgs (ChatRoom.fetch st req freshSid uuid now fails).2.1,
        contentIffMessage m)
    ∧ (∀ (st : RoomState) (s : WebSocketSession) (d : Inbound) (uuid : String)
        (now : Int) (fails : Nat → Bool),
      ∀ m ∈ chatMsgs (ChatRoom.handleMessage st s d uuid now fails).2,
        contentIffMessage m)
    ∧ (∀ (st : RoomState) (s : WebSocketSession) (uuid : String) (now : Int)
        (fails : Nat → Bool),
      ∀ m ∈ chatMsgs (ChatRoom.handleClose st s uuid now fails).2,
        contentIffMessage m) := by
  refine ⟨?_, ?_, ?_⟩
  · intro st req freshSid uuid now fails m hm
    obtain ⟨a, b, c⟩ := req
    rcases a with _ | u
    · simp [ChatRoom.fetch, chatMsgs] at hm
    rcases b with _ | n
    · simp [ChatRoom.fetch, chatMsgs] at hm
    simp only [ChatRoom.fetch] at hm
    split_ifs at hm with h1 h2
    · simp [chatMsgs] at hm
    · simp [chatMsgs] at hm
    · rw [chatMsgs_append, chatMsgs_append, chatMsgs_sendMessageHistory,
        chatMsgs_sendPresence, chatMsgs_broadcast] at hm
      simp only [List.nil_append, List.append_nil, List.mem_map] at hm
      obtain ⟨t, -, hm⟩ := hm
      rw [← hm]
      simp [contentIffMessage]
  · intro st s d uuid now fails m hm
    cases d with
    | malformed => simp [ChatRoom.handleMessage, chatMsgs] at hm
    | parsedOk v =>
      cases hv : ChatRoom.validFrame v with
      | false =>
        simp only [ChatRoom.handleMessage, hv, Bool.false_eq_true,
          if_false] at hm
        simp [chatMsgs] at hm
      | true =>
        simp only [ChatRoom.handleMessage, hv, if_true] at hm
        rw [chatMsgs_cons_put, chatMsgs_broadcast] at hm
        simp only [List.mem_map] at hm
        obtain ⟨t, -, hm⟩ := hm
        rw [← hm]
        simp [contentIffMessage, validFrame_content_isSome hv]
  · intro st s uuid now fails m hm
    cases hq : s.quit with
    | true =>
      simp only [ChatRoom.handleClose, hq, if_true] at hm
      simp [chatMsgs] at hm
    | false =>
      simp only [ChatRoom.handleClose, hq, Bool.false_eq_true, if_false] at hm
      rw [chatMsgs_broadcast] at hm
      simp only [List.mem_map] at hm
      obtain ⟨t, -, hm⟩ := hm
      rw [← hm]
      simp [contentIffMessage]

/-- Witness for C9 at the join message of a concrete admission. -/
theorem c9_content_iff_message_witness :
    contentIffMessage ⟨"j", .join, "a", "A", none, 0⟩ :=
  c9_content_iff_message.1 ⟨[], []⟩ ⟨some "a", some "A", some "websocket"⟩ 0
    "j" 0 (fun _ => false) ⟨"j", .join, "a", "A", none, 0⟩
    (by simp [ChatRoom.fetch, ChatRoom.sendMessageHistory,
      ChatRoom.sendPresence, ChatRoom.broadcast, chatMsgs])

lemma fetch_messageHistory (st : RoomState) (req : Request) (freshSid : Nat)
    (uuid : String) (now : Int) (fails : Nat → Bool) :
    (ChatRoom.fetch st req freshSid uuid now fails).1.messageHistory =
      st.messageHistory := by
  obtain ⟨a, b, c⟩ := req
  rcases a with _ | u
  · rfl
  rcases b with _ | n
  · rfl
  simp only [ChatRoom.fetch]
  split_ifs <;> rfl

lemma handleClose_messageHistory (st : RoomState) (s : WebSocketSession)
    (uuid : String) (now : Int) (fails : Nat → Bool) :
    (ChatRoom.handleClose st s uuid now fails).1.messageHistory =
      st.messageHistory := by
  cases hq : s.quit <;> simp [ChatRoom.handleClose, hq]

/-- Claim C10: in every room state reachable from a fresh room by the
four handlers, every history entry has type message: join and leave
messages are broadcast but never appended to the history. -/
theorem c10_history_only_messages :
    ∀ st : RoomState, Reachable st →
      ∀ m ∈ st.messageHistory, m.type = .message := by
  intro st h
  induction h with
  | init => intro m hm; simp at hm
  | step_fetch st req freshSid uuid now fails _ ih =>
    intro m hm
    rw [fetch_messageHistory] at hm
    exact ih m hm
  | step_message st s d uuid now fails _ ih =>
    intro m hm
    cases d with
    | malformed => exact ih m hm
    | parsedOk v =>
      cases hv : ChatRoom.validFrame v with
      | false =>
        simp only [ChatRoom.handleMessage, hv, Bool.false_eq_true,
          if_false] at hm
        exact ih m hm
      | true =>
        simp only [ChatRoom.handleMessage, hv, if_true] at hm
        have hm2 : m ∈ st.messageHistory ++
            [(⟨uuid, .message, s.userId, s.username, getField v "content",
              now⟩ : ChatMessage)] := by
          split at hm
          · exact List.drop_subset _ _ hm
          · exact hm
        rcases List.mem_append.mp hm2 with hmem | hmem
        · exact ih m hmem
        · rw [List.mem_singleton.mp hmem]
  | step_close st s uuid now fails _ ih =>
    intro m hm
    rw [handleClose_messageHistory] at hm
    exact ih m hm
  | step_alarm st now _ ih =>
    intro m hm
    simp only [ChatRoom.alarm] at hm
    exact ih m (List.mem_filter.mp hm).1

/-- Witness for C10 at the state reached by one admission followed by
one valid message. -/
theorem c10_history_only_messages_witness :
    (⟨"m", .message, "a", "A", some (.str "hi"), 1⟩ : ChatMessage).type =
      .message :=
  c10_history_only_messages
    (ChatRoom.handleMessage
      (ChatRoom.fetch ⟨[], []⟩ ⟨some "a", some "A", some "websocket"⟩ 0 "j" 0
        (fun _ => false)).1 sA frameHi "m" 1 (fun _ => false)).1
    (Reachable.step_message _ sA frameHi "m" 1 (fun _ => false)
      (Reachable.step_fetch ⟨[], []⟩ ⟨some "a", some "A", some "websocket"⟩ 0
        "j" 0 (fun _ => false) Reachable.init))
    ⟨"m", .message, "a", "A", some (.str "hi"), 1⟩
    (List.mem_singleton_self _)
